import Mathlib

/-!
Verification of the colorbar component
(src/qudi/gui/gui_components/colorbar/colorbar.py).

The embedding models Python floats as exact rationals (ℚ), numpy arrays as
lists of rationals (all numpy operations used by the component are
order-insensitive or are modelled on the flattened row-major order), and the
widget state of `ColorbarWidget` as an explicit record.  An absent image
(`self._image.image is None`, before any acquisition) is modelled as `none`.
-/

-- Batteries marks rational arithmetic irreducible; re-allow unfolding so that
-- concrete states can be evaluated by `decide`.
attribute [local semireducible] Rat.add Rat.mul Rat.sub Rat.inv

/-- Floor of a rational, as computed (kernel-reducibly) from its normal form.
`Rat.floor_def` identifies it with the mathematical floor. -/
def ratFloor (q : ℚ) : ℤ := q.num / q.den

theorem ratFloor_eq_floor (q : ℚ) : ratFloor q = ⌊q⌋ := Rat.floor_def.symm

/-- `np.percentile(a, q)` with numpy's default linear interpolation between
closest ranks: on the sorted data `s` of size `n`, the virtual rank is
`r = q*(n-1)/100` and the result interpolates between `s[⌊r⌋]` and `s[⌊r⌋+1]`
with fraction `r - ⌊r⌋`.  (numpy raises on an empty array; every call site in
the source is guarded by `np.count_nonzero(...) ≥ 1`, so the value returned
here for `[]` is irrelevant.) -/
def np_percentile (a : List ℚ) (q : ℚ) : ℚ :=
  let s := List.insertionSort (· ≤ ·) a
  let n := s.length
  let r : ℚ := q * (n - 1) / 100
  let i : ℕ := (ratFloor r).toNat
  let lo := s.getD i 0
  let hi := s.getD (i + 1) lo
  lo + (r - (ratFloor r : ℚ)) * (hi - lo)

/-- `np.min` of a (nonempty) flattened array.  numpy raises on empty input;
call sites guard or are only used on nonempty data. -/
def np_min (l : List ℚ) : ℚ := l.foldl min (l.headD 0)

/-- `np.max` of a (nonempty) flattened array. -/
def np_max (l : List ℚ) : ℚ := l.foldl max (l.headD 0)

/-- `np.count_nonzero(self._image.image)`: number of nonzero entries;
for an absent image (`None`, a falsy 0-d scalar to numpy) the count is 0. -/
def count_nonzero : Option (List ℚ) → ℕ
  | none => 0
  | some l => (l.filter (fun x => decide (x ≠ 0))).length

/-- `self._image.image[np.nonzero(self._image.image)]`: the nonzero entries in
row-major order (only reached when at least one exists). -/
def image_nonzero : Option (List ℚ) → List ℚ
  | none => []
  | some l => l.filter (fun x => decide (x ≠ 0))

/-- The mutable state of `ColorbarWidget` that the range logic reads and
writes: the two mode toggle widgets' checked state, the four spin-box values,
the associated image widget's data, the levels last applied to the image via
`setImage(..., levels=...)`, and the (cb_min, cb_max) last passed to the
`ColorBar` legend via `ColorBar.refresh_colorbar`. -/
structure ColorbarState where
  manualChecked : Bool
  percentileChecked : Bool
  min_manual : ℚ
  max_manual : ℚ
  min_percentile : ℚ
  max_percentile : ℚ
  image : Option (List ℚ)
  imageLevels : ℚ × ℚ
  legendRange : ℚ × ℚ
deriving DecidableEq

/-- `ColorbarWidget.get_cb_range` (lines 200-221). -/
def get_cb_range (st : ColorbarState) : ℚ × ℚ :=
  if st.manualChecked = true ∨ count_nonzero st.image < 1 then
    (st.min_manual, st.max_manual)
  else
    let nz := image_nonzero st.image
    (np_percentile nz st.min_percentile, np_percentile nz st.max_percentile)

/-- `ColorbarWidget.refresh_colorbar` (lines 223-226): recompute the range and
push it to the legend. -/
def refresh_colorbar (st : ColorbarState) : ColorbarState :=
  let cb_range := get_cb_range st
  { st with legendRange := cb_range }

/-- `ColorbarWidget.refresh_image` (lines 228-234): recompute the range, apply
it as the image's display levels, then call `refresh_colorbar` (which
recomputes the range again). -/
def refresh_image (st : ColorbarState) : ColorbarState :=
  let cb_range := get_cb_range st
  refresh_colorbar { st with imageLevels := cb_range }

/-- `ColorbarWidget.update_cb_range` (lines 236-239). -/
def update_cb_range (st : ColorbarState) : ColorbarState :=
  refresh_image (refresh_colorbar st)

/-- `ColorbarWidget.shortcut_to_cb_manual` (lines 241-244): a manual spin box
was edited; `self.manual.setChecked(True)` then update.  (Only the `manual`
widget is touched by this line of the source.) -/
def shortcut_to_cb_manual (st : ColorbarState) : ColorbarState :=
  update_cb_range { st with manualChecked := true }

/-- `ColorbarWidget.shortcut_to_cb_centiles` (lines 246-249). -/
def shortcut_to_cb_centiles (st : ColorbarState) : ColorbarState :=
  update_cb_range { st with percentileChecked := true }

/-- Editing the manual-min field: the spin box stores the new value, then its
`valueChanged` signal runs `shortcut_to_cb_manual` (line 174). -/
def edit_min_manual (st : ColorbarState) (v : ℚ) : ColorbarState :=
  shortcut_to_cb_manual { st with min_manual := v }

/-- Editing the manual-max field (line 176). -/
def edit_max_manual (st : ColorbarState) (v : ℚ) : ColorbarState :=
  shortcut_to_cb_manual { st with max_manual := v }

/-- Editing the percentile-low field (line 173). -/
def edit_min_percentile (st : ColorbarState) (v : ℚ) : ColorbarState :=
  shortcut_to_cb_centiles { st with min_percentile := v }

/-- Editing the percentile-high field (line 175). -/
def edit_max_percentile (st : ColorbarState) (v : ℚ) : ColorbarState :=
  shortcut_to_cb_centiles { st with max_percentile := v }

/-- `refresh_colorbar` instrumented with a counter that is incremented at the
single `get_cb_range()` call site (line 225). -/
def refresh_colorbarC (st : ColorbarState) (calls : ℕ) : ColorbarState × ℕ :=
  ({ st with legendRange := get_cb_range st }, calls + 1)

/-- `refresh_image` instrumented: one `get_cb_range()` call of its own
(line 232) plus those of the `refresh_colorbar()` it ends with (line 234). -/
def refresh_imageC (st : ColorbarState) (calls : ℕ) : ColorbarState × ℕ :=
  refresh_colorbarC { st with imageLevels := get_cb_range st } (calls + 1)

/-- `update_cb_range` instrumented (lines 238-239). -/
def update_cb_rangeC (st : ColorbarState) (calls : ℕ) : ColorbarState × ℕ :=
  let r := refresh_colorbarC st calls
  refresh_imageC r.1 r.2

/-- `ColorbarWidget.set_image` (lines 191-198): store the new image widget,
overwrite the manual spin boxes with the image's min/max and the percentile
spin boxes with 0/100, then refresh the legend.  numpy raises on `np.min` of
an empty array, hence the `none` result for an empty image.  (The Qt
`valueChanged` signals fired by `setValue` trigger further mode/refresh
updates but write no other value into the four spin boxes.) -/
def set_image (st : ColorbarState) (img : List ℚ) : Option ColorbarState :=
  if img.isEmpty then none
  else
    some (refresh_colorbar
      { st with image := some img,
                min_manual := np_min img, min_percentile := 0,
                max_manual := np_max img, max_percentile := 100 })

/-! ### The `ColorBar` graphics object (lines 39-121) -/

/-- An RGBA color; the source handles colors as 4 normalized float channels
(converted with `255*c` when handed to Qt). -/
structure Color where
  red : ℚ
  green : ℚ
  blue : ℚ
  alpha : ℚ
deriving DecidableEq

/-- The `QColor(*[255*c for c in color])` conversion at line 86. -/
def scale255 (c : Color) : Color :=
  ⟨255 * c.red, 255 * c.green, 255 * c.blue, 255 * c.alpha⟩

/-- A `QRectF(x, y, w, h)`. -/
structure Rect where
  x : ℚ
  y : ℚ
  w : ℚ
  h : ℚ
deriving DecidableEq

/-- The drawing commands serialized into `self.pic` that determine the visible
legend: the linear-gradient stops (`grad.setColorAt(1.0 - stop, ...)`,
line 86; a `none` position models a NaN stop position, which Qt ignores) and
the gradient-filled rectangle (line 89). -/
structure LegendPic where
  gradStops : List (Option ℚ × Color)
  rect : Rect
deriving DecidableEq

/-- The stop normalization in `ColorBar.__init__` (line 54):
`(stops - stops.min()) / stops.ptp()`.  When all stops share one position,
`ptp() = 0` and numpy evaluates `0.0/0.0` to NaN (with only a
RuntimeWarning); the NaN result is modelled as `none`. -/
def normalize_stops (stops : List ℚ) : List (Option ℚ) :=
  let m := np_min stops
  let p := np_max stops - np_min stops
  stops.map (fun s => if p = 0 then none else some ((s - m) / p))

/-- `ColorBar.refresh_colorbar` with `xMin is None` (lines 64-94): rebuild the
picture with a vertical gradient from height `cb_min` to `cb_max` and the
filled rectangle `QRectF(0, cb_min, width, cb_max - cb_min)`. -/
def ColorBar.refreshPic (stops : List (Option ℚ)) (colors : List Color)
    (width cb_min cb_max : ℚ) : LegendPic :=
  { gradStops := (stops.zip colors).map
      (fun sc => (sc.1.map (fun s => 1 - s), scale255 sc.2)),
    rect := ⟨0, cb_min, width, cb_max - cb_min⟩ }

/-- The state of a `ColorBar` object after `__init__`. -/
structure ColorBarObj where
  stops : List (Option ℚ)
  colors : List Color
  width : ℚ
  pic : LegendPic
deriving DecidableEq

/-- `ColorBar.__init__` (lines 48-62).  The only failing path is numpy's
`.min()`/`.ptp()` on an empty stop array (a `ValueError`); an all-equal stop
array does NOT fail — the division by `ptp() = 0` silently produces NaN
positions (see `normalize_stops`) — and construction completes. -/
def ColorBar.init (stops : List ℚ) (colors : List Color)
    (width cb_min cb_max : ℚ) : Except String ColorBarObj :=
  if stops.isEmpty then
    Except.error "zero-size array to reduction operation minimum"
  else
    let ns := normalize_stops stops
    Except.ok { stops := ns, colors := colors, width := width,
                pic := ColorBar.refreshPic ns colors width cb_min cb_max }

/-- Modelled from the spec: `ColorMap.colorAt` (spec §4.1) — the repository
delegates gradient evaluation to Qt's `QLinearGradient`, whose code is not
part of this repository.  Linear per-channel interpolation between the two
stops bracketing `t` (stops assumed in ascending position order), clamped to
the end colors outside the stop range. -/
def blend (c d : Color) (f : ℚ) : Color :=
  ⟨c.red + f * (d.red - c.red), c.green + f * (d.green - c.green),
   c.blue + f * (d.blue - c.blue), c.alpha + f * (d.alpha - c.alpha)⟩

/-- Modelled from the spec: color of an ascending stop list at parameter `t`
(see `blend`); clamps beyond the first/last stop as Qt's pad spread does. -/
def colorAt : List (ℚ × Color) → ℚ → Color
  | [], _ => ⟨0, 0, 0, 0⟩
  | [p], _ => p.2
  | p :: q :: rest, t =>
    if t ≤ p.1 then p.2
    else if t ≤ q.1 then blend p.2 q.2 ((t - p.1) / (q.1 - p.1))
    else colorAt (q :: rest) t

/-- The valid (non-NaN) gradient stops, in ascending position order (Qt sorts
stops by position and ignores invalid ones). -/
def validStops (l : List (Option ℚ × Color)) : List (ℚ × Color) :=
  List.insertionSort (fun a b => a.1 ≤ b.1)
    (l.filterMap (fun sc => sc.1.map (fun s => (s, sc.2))))

/-- Membership in the filled area of a rectangle (a zero- or negative-height
rectangle has empty filled area). -/
def inFilledRect (r : Rect) (px py : ℚ) : Prop :=
  r.x ≤ px ∧ px < r.x + r.w ∧ r.y ≤ py ∧ py < r.y + r.h

instance (r : Rect) (px py : ℚ) : Decidable (inFilledRect r px py) := by
  unfold inFilledRect; infer_instance

/-- Modelled from the spec: the Qt rasterization of the picture — a point is
painted iff it lies in the filled gradient rectangle, and its color is the
gradient color at the point's normalized position along the gradient line
(which runs from height `cb_min = rect.y` to `cb_max = rect.y + rect.h`,
line 84). -/
def paintedColor (pic : LegendPic) (px py : ℚ) : Option Color :=
  if inFilledRect pic.rect px py then
    some (colorAt (validStops pic.gradStops) ((py - pic.rect.y) / pic.rect.h))
  else none

/-! ### Specification-side definitions (refinement targets) -/

/-- The spec's `RangeMode` enumeration (spec §3). -/
inductive RangeMode
  | MANUAL
  | PERCENTILE
deriving DecidableEq

/-- Follows the spec's words (§4.2, refinement target for the percentile
computation): the `q`-th percentile of a multiset "using linear interpolation
between closest ranks (the conventional percentile definition)" — on the
sorted data, the weighted average of the two order statistics bracketing the
virtual rank `q/100 * (n-1)`, weighted by the fractional part of the rank. -/
def percentile_spec (a : List ℚ) (q : ℚ) : ℚ :=
  let s := List.insertionSort (· ≤ ·) a
  let n := s.length
  let rank : ℚ := q * (n - 1) / 100
  let k : ℕ := (ratFloor rank).toNat
  let g : ℚ := rank - (ratFloor rank : ℚ)
  (1 - g) * s.getD k 0 + g * s.getD (k + 1) (s.getD k 0)

/-- Follows the spec's words (§4.2, refinement target):
`computeRange(sample, mode, manual, percentile)`. -/
def computeRange_spec (sample : Option (List ℚ)) (mode : RangeMode)
    (manual : ℚ × ℚ) (pct : ℚ × ℚ) : ℚ × ℚ :=
  let nz := (sample.getD []).filter (fun x => decide (x ≠ 0))
  if mode = RangeMode.MANUAL ∨ nz = [] then manual
  else (percentile_spec nz pct.1, percentile_spec nz pct.2)

/-! ### The mode toggles as a state machine

The checked state of the `manual` / `percentile` toggle widgets is created by
`ui_colorbar.ui`, which is part of the repository but not available here; the
Python code only ever calls `setChecked(True)` on one of the two widgets. -/

/-- The checked state of the two mode toggle widgets. -/
structure ModeToggles where
  manual : Bool
  percentile : Bool
deriving DecidableEq

/-- Modelled from the spec: the behavior of `setChecked(True)` on the toggle
widget pair is fixed by `ui_colorbar.ui` (not under src/); per spec §3
("RangeMode: enumeration. Exactly one is active at a time") the toggles
are exclusive, so checking one unchecks the other. -/
def checkManual (_ : ModeToggles) : ModeToggles := ⟨true, false⟩

/-- Modelled from the spec: see `checkManual`. -/
def checkPercentile (_ : ModeToggles) : ModeToggles := ⟨false, true⟩

/-- The user events that reach the mode toggles (spec §4.4): editing one of
the four numeric fields, or toggling a mode directly. -/
inductive ModeEvent
  | editManualField
  | editPercentileField
  | toggleManual
  | togglePercentile
deriving DecidableEq

/-- One controller transition, restricted to the toggle state:
`shortcut_to_cb_manual` / `shortcut_to_cb_centiles` check their mode's toggle
(lines 243, 248); clicking a toggle checks it. -/
def modeStep (s : ModeToggles) : ModeEvent → ModeToggles
  | ModeEvent.editManualField => checkManual s
  | ModeEvent.editPercentileField => checkPercentile s
  | ModeEvent.toggleManual => checkManual s
  | ModeEvent.togglePercentile => checkPercentile s

/-- `ColorbarWidget.__init__` ends with `self.percentile.setChecked(True)`
(line 145). -/
def initToggles : ModeToggles := checkPercentile ⟨false, false⟩

/-- The toggle states reachable from initialization by user events. -/
inductive ReachableToggles : ModeToggles → Prop
  | init : ReachableToggles initToggles
  | step {s : ModeToggles} (e : ModeEvent) :
      ReachableToggles s → ReachableToggles (modeStep s e)

/-! ### Claim C9 -/

/-- The 10×10 scenario sample, flattened row-major: 40 cells holding 1..40 and
60 unmeasured cells holding 0. -/
def c9_image : List ℚ :=
  (List.range 40).map (fun k => ((k : ℚ) + 1)) ++ List.replicate 60 0

/-- Widget state for the scenario: PERCENTILE mode, low = 0, high = 100. -/
def c9_state : ColorbarState :=
  { manualChecked := false, percentileChecked := true,
    min_manual := 0, max_manual := 100,
    min_percentile := 0, max_percentile := 100,
    image := some c9_image, imageLevels := (0, 100), legendRange := (0, 100) }

/-- Claim C9: for the 10×10 sample with 60 zeros and the integers 1..40, the
range computation in PERCENTILE mode with percentiles (0, 100) returns
exactly (1, 40), the minimum and maximum of the nonzero subset. -/
theorem C9_end_to_end_percentile_full_range :
    get_cb_range c9_state = (1, 40) := by decide

/-! ### Claim C1 -/

/-- A concrete widget state (PERCENTILE mode, some data). -/
def c1_state : ColorbarState :=
  { manualChecked := false, percentileChecked := true,
    min_manual := 0, max_manual := 100,
    min_percentile := 0, max_percentile := 100,
    image := some [0, 5, 7], imageLevels := (0, 0), legendRange := (0, 0) }

/-- Claim C1 counterexample: the range IS recomputed separately for the two
views — one controller update (`update_cb_range`) invokes `get_cb_range`
three times, and `refresh_image` alone invokes it twice (once for the image
levels at line 232 and once more for the legend via `refresh_colorbar()` at
line 234), not the single computation the claim asserts. -/
theorem C1_cex_range_recomputed :
    (update_cb_rangeC c1_state 0).2 = 3 ∧ (refresh_imageC c1_state 0).2 = 2 ∧
      ¬ ((3 : ℕ) = 1) := by decide

/-- Claim C1 (amended): after every controller update the legend's range and
the image's display levels are equal — both equal `get_cb_range` of the
pre-update state, because the recomputations read identical inputs — but the
range is recomputed at each use (three `get_cb_range` calls per update)
rather than computed once. -/
theorem C1_views_agree_amended (st : ColorbarState) :
    (update_cb_range st).legendRange = (update_cb_range st).imageLevels ∧
    (update_cb_range st).legendRange = get_cb_range st ∧
    (shortcut_to_cb_manual st).legendRange
      = (shortcut_to_cb_manual st).imageLevels ∧
    (shortcut_to_cb_centiles st).legendRange
      = (shortcut_to_cb_centiles st).imageLevels ∧
    (update_cb_rangeC st 0).1 = update_cb_range st ∧
    (update_cb_rangeC st 0).2 = 3 := by
  cases st
  exact ⟨rfl, rfl, rfl, rfl, rfl, rfl⟩

/-! ### Claim C8 -/

/-- A state between acquisitions: no image yet, last-known range (1, 40). -/
def c8_state : ColorbarState :=
  { manualChecked := false, percentileChecked := true,
    min_manual := 0, max_manual := 100,
    min_percentile := 0, max_percentile := 100,
    image := none, imageLevels := (1, 40), legendRange := (1, 40) }

/-- Claim C8 counterexample: with the sample entirely absent, the controller
update is NOT an idle no-op — it recomputes (three `get_cb_range` calls) and
replaces the last-known legend range (1, 40) with the manual bounds
(0, 100). -/
theorem C8_cex_absent_sample_recomputes :
    (update_cb_range c8_state).legendRange = (0, 100) ∧
    c8_state.legendRange = (1, 40) ∧
    ¬ (((0 : ℚ), (100 : ℚ)) = ((1 : ℚ), (40 : ℚ))) ∧
    (update_cb_rangeC c8_state 0).2 = 3 := by decide

/-- Claim C8 (amended): when the sample is absent, a controller update still
recomputes and falls back to the manual bounds (`np.count_nonzero(None) = 0`
takes the manual branch): the legend range and image levels are both replaced
by `(min_manual, max_manual)`; nothing else changes and no error is
signaled. -/
theorem C8_absent_sample_manual_fallback_amended (st : ColorbarState)
    (h : st.image = none) :
    update_cb_range st =
      { st with legendRange := (st.min_manual, st.max_manual),
                imageLevels := (st.min_manual, st.max_manual) } := by
  cases st
  subst h
  simp [update_cb_range, refresh_image, refresh_colorbar, get_cb_range,
    count_nonzero]

/-- Witness for C8 (amended) at the concrete state `c8_state`. -/
theorem C8_absent_sample_manual_fallback_amended_witness :
    update_cb_range c8_state =
      { manualChecked := false, percentileChecked := true,
        min_manual := 0, max_manual := 100,
        min_percentile := 0, max_percentile := 100,
        image := none, imageLevels := (0, 100), legendRange := (0, 100) } :=
  (C8_absent_sample_manual_fallback_amended c8_state rfl).trans (by decide)

/-! ### Claim C3 -/

/-- Two arbitrary stop colors. -/
def c3_colors : List Color := [⟨0, 0, 0, 1⟩, ⟨1, 1, 1, 1⟩]

/-- Claim C3 counterexample: constructing a `ColorBar` from a stop list whose
positions all coincide does NOT fail — `__init__` completes and silently
produces an object whose normalized stop positions are all NaN (numpy's
`0.0/0.0`); no `DegenerateColorMap` (or any other) error is surfaced. -/
theorem C3_cex_degenerate_colormap_no_error :
    (ColorBar.init [1/2, 1/2] c3_colors 100 0 100).isOk = true ∧
    normalize_stops [1/2, 1/2] = [none, none] := by decide

/-- Claim C3 (amended): for every stop list with all stops at one position
(`ptp() = 0`), `ColorBar` construction succeeds — the division by zero only
yields NaN (undefined) stop positions, silently; no error of any kind is
raised on this path. -/
theorem C3_degenerate_yields_nan_amended (stops : List ℚ) (colors : List Color)
    (width cb_min cb_max : ℚ) (hne : stops ≠ [])
    (hdeg : np_max stops - np_min stops = 0) :
    (ColorBar.init stops colors width cb_min cb_max).isOk = true ∧
    normalize_stops stops = stops.map (fun _ => none) := by
  constructor
  · unfold ColorBar.init
    rw [if_neg (by simpa [List.isEmpty_iff] using hne)]
    rfl
  · unfold normalize_stops
    simp [hdeg]

/-- Witness for C3 (amended) at the concrete degenerate stop list. -/
theorem C3_degenerate_yields_nan_amended_witness :
    (ColorBar.init [1/2, 1/2] c3_colors 50 0 10).isOk = true ∧
    normalize_stops [1/2, 1/2] = [(1 : ℚ)/2, 1/2].map (fun _ => none) :=
  C3_degenerate_yields_nan_amended [1/2, 1/2] c3_colors 50 0 10
    (by decide) (by decide)

/-! ### Claim C4 -/

/-- Claim C4 (amended): rendering the legend with `cb_min == cb_max` does not
fail and involves no division by the (zero-width) range — the gradient stop
positions `1 - s` are independent of the range — but the gradient rectangle
`QRectF(0, cb_min, width, cb_max - cb_min)` has zero height, so NO point is
painted: the result is an empty legend, not a buffer uniformly filled with
`colorAt(1.0)`. -/
theorem C4_min_eq_max_empty_rect_amended (stops : List (Option ℚ))
    (colors : List Color) (width m px py : ℚ) :
    paintedColor (ColorBar.refreshPic stops colors width m m) px py = none ∧
    (ColorBar.refreshPic stops colors width m m).rect = ⟨0, m, width, 0⟩ := by
  constructor
  · unfold paintedColor
    rw [if_neg]
    unfold inFilledRect ColorBar.refreshPic
    simp only [not_and, not_lt]
    intro _ _ hy
    simpa using hy
  · unfold ColorBar.refreshPic
    simp

/-- The legend picture rendered at `cb_min = cb_max = 5` from the normalized
two-stop colormap. -/
def c4_pic : LegendPic :=
  ColorBar.refreshPic [some 0, some 1] [⟨0, 0, 0, 1⟩, ⟨1, 1, 1, 1⟩] 100 5 5

/-- Claim C4 counterexample: at the in-buffer point (50, 5) of the
`min == max` render, nothing is painted at all — in particular the painted
color is not `colorAt(1.0)` (the claim asserted a uniform `colorAt(1.0)` fill
across the whole buffer). -/
theorem C4_cex_min_eq_max_not_uniform :
    paintedColor c4_pic 50 5 = none ∧
    ¬ (paintedColor c4_pic 50 5
        = some (colorAt (validStops c4_pic.gradStops) 1)) := by decide

/-! ### Claim C6 -/

/-- Claim C6: in every reachable toggle state exactly one of the two modes is
active, and each transition follows the rule — editing a manual field forces
MANUAL, editing a percentile field forces PERCENTILE, an explicit toggle sets
the mode directly.  (The toggle widgets' exclusivity is modelled from the
spec, see `checkManual`.) -/
theorem C6_exactly_one_mode :
    (∀ s : ModeToggles, ReachableToggles s → s.manual = !s.percentile) ∧
    (∀ s : ModeToggles,
      modeStep s ModeEvent.editManualField = ⟨true, false⟩ ∧
      modeStep s ModeEvent.editPercentileField = ⟨false, true⟩ ∧
      modeStep s ModeEvent.toggleManual = ⟨true, false⟩ ∧
      modeStep s ModeEvent.togglePercentile = ⟨false, true⟩) := by
  constructor
  · intro s h
    induction h with
    | init => rfl
    | step e _ _ => cases e <;> rfl
  · intro s
    exact ⟨rfl, rfl, rfl, rfl⟩

/-- Witness for C6 at the initial state (reachable by construction). -/
theorem C6_exactly_one_mode_witness :
    initToggles.manual = !initToggles.percentile :=
  C6_exactly_one_mode.1 initToggles ReachableToggles.init

/-! ### Claim C10 -/

/-- Claim C10: the MANUAL test is evaluated first in `get_cb_range`, so
whenever the manual toggle is checked the manual bounds are returned for
every sample (regardless of the percentile toggle); and the field-edit
handlers only check their own mode's toggle, leaving the other toggle's
checked state untouched. -/
theorem C10_manual_precedence (st : ColorbarState) :
    (st.manualChecked = true →
      get_cb_range st = (st.min_manual, st.max_manual)) ∧
    (shortcut_to_cb_manual st).manualChecked = true ∧
    (shortcut_to_cb_manual st).percentileChecked = st.percentileChecked ∧
    (shortcut_to_cb_centiles st).percentileChecked = true ∧
    (shortcut_to_cb_centiles st).manualChecked = st.manualChecked := by
  refine ⟨?_, ?_, ?_, ?_, ?_⟩
  · intro h
    unfold get_cb_range
    rw [if_pos (Or.inl h)]
  all_goals cases st; rfl

/-- A state with BOTH toggles checked simultaneously. -/
def c10_both_state : ColorbarState :=
  { manualChecked := true, percentileChecked := true,
    min_manual := 10, max_manual := 20,
    min_percentile := 0, max_percentile := 100,
    image := some [1, 2, 3], imageLevels := (0, 0), legendRange := (0, 0) }

/-- Witness for C10: with both toggles checked, the manual bounds win, and a
manual field edit leaves the percentile toggle checked. -/
theorem C10_manual_precedence_witness :
    get_cb_range c10_both_state
      = (c10_both_state.min_manual, c10_both_state.max_manual) ∧
    (shortcut_to_cb_manual c10_both_state).percentileChecked
      = c10_both_state.percentileChecked :=
  ⟨(C10_manual_precedence c10_both_state).1 rfl,
   (C10_manual_precedence c10_both_state).2.2.1⟩

/-! ### Claim C7 -/

/-- A state with user-chosen manual bounds (3, 7) and percentile bounds
(20, 80). -/
def c7_state : ColorbarState :=
  { manualChecked := true, percentileChecked := false,
    min_manual := 3, max_manual := 7,
    min_percentile := 20, max_percentile := 80,
    image := some [2, 4], imageLevels := (2, 4), legendRange := (2, 4) }

/-- Projection used to state the C7 counterexample without binders. -/
def minManualAfter (o : Option ColorbarState) : Option ℚ :=
  o.map ColorbarState.min_manual

/-- Claim C7 counterexample: supplying a new image via `set_image` DOES change
the stored manual bounds — with stored manual min 3, `set_image` with an
image of minimum 1 overwrites the manual min to 1 (lines 194-197 call
`setValue` on all four spin boxes). -/
theorem C7_cex_set_image_overwrites_bounds :
    minManualAfter (set_image c7_state [1, 9]) = some 1 ∧
    c7_state.min_manual = 3 ∧ ¬ ((1 : ℚ) = 3) := by decide

/-- The state produced by `set_image c7_state [1, 9]`. -/
def c7_after : ColorbarState :=
  { manualChecked := true, percentileChecked := false,
    min_manual := 1, max_manual := 9,
    min_percentile := 0, max_percentile := 100,
    image := some [1, 9], imageLevels := (2, 4), legendRange := (1, 9) }

/-- Claim C7 (amended): the refresh/update operations leave the bounds, the
toggles and the image untouched, and the only non-setter mutation is
`set_image`, which deterministically resets the manual bounds to the new
image's min/max and the percentile bounds to (0, 100). -/
theorem C7_bounds_setters_amended (st : ColorbarState) :
    ((update_cb_range st).min_manual = st.min_manual ∧
     (update_cb_range st).max_manual = st.max_manual ∧
     (update_cb_range st).min_percentile = st.min_percentile ∧
     (update_cb_range st).max_percentile = st.max_percentile ∧
     (update_cb_range st).manualChecked = st.manualChecked ∧
     (update_cb_range st).percentileChecked = st.percentileChecked ∧
     (update_cb_range st).image = st.image) ∧
    (∀ img st2, set_image st img = some st2 →
      st2.min_manual = np_min img ∧ st2.max_manual = np_max img ∧
      st2.min_percentile = 0 ∧ st2.max_percentile = 100 ∧
      st2.image = some img) := by
  constructor
  · cases st
    exact ⟨rfl, rfl, rfl, rfl, rfl, rfl, rfl⟩
  · intro img st2 h
    unfold set_image at h
    by_cases he : img.isEmpty
    · rw [if_pos he] at h
      exact absurd h (by simp)
    · rw [if_neg he] at h
      have h2 := Option.some.inj h
      subst h2
      cases st
      exact ⟨rfl, rfl, rfl, rfl, rfl⟩

/-- Witness for C7 (amended), at `c7_state` with the new image `[1, 9]`. -/
theorem C7_bounds_setters_amended_witness :
    ((update_cb_range c7_state).min_manual = c7_state.min_manual) ∧
    (c7_after.min_manual = np_min [1, 9] ∧ c7_after.max_manual = np_max [1, 9] ∧
     c7_after.min_percentile = 0 ∧ c7_after.max_percentile = 100 ∧
     c7_after.image = some [1, 9]) :=
  ⟨(C7_bounds_setters_amended c7_state).1.1,
   (C7_bounds_setters_amended c7_state).2 [1, 9] c7_after (by decide)⟩

/-! ### Claim C2 -/

/-- The numpy percentile and the spec's closest-ranks formulation agree: the
interpolation `lo + g*(hi - lo)` is the weighted average `(1-g)*lo + g*hi`. -/
theorem np_percentile_eq_spec (a : List ℚ) (q : ℚ) :
    np_percentile a q = percentile_spec a q := by
  unfold np_percentile percentile_spec
  ring

/-- The nonzero extraction agrees with the spec's zero-excluded multiset of an
(absent-defaulted) sample. -/
theorem image_nonzero_eq_filter (o : Option (List ℚ)) :
    image_nonzero o = (o.getD []).filter (fun x => decide (x ≠ 0)) := by
  cases o <;> rfl

/-- The nonzero count is the length of the nonzero extraction. -/
theorem count_nonzero_eq_length (o : Option (List ℚ)) :
    count_nonzero o = (image_nonzero o).length := by
  cases o <;> rfl

/-- Claim C2: `get_cb_range` coincides with the spec's
`computeRange(sample, mode, manual, percentile)` — manual mode or a sample
with no nonzero entry returns the manual bounds unchanged, and otherwise the
low-th and high-th linear-interpolation percentiles of the zero-excluded
multiset are returned. -/
theorem C2_computeRange_refines_spec (st : ColorbarState) :
    get_cb_range st =
      computeRange_spec st.image
        (if st.manualChecked then RangeMode.MANUAL else RangeMode.PERCENTILE)
        (st.min_manual, st.max_manual)
        (st.min_percentile, st.max_percentile) := by
  unfold get_cb_range computeRange_spec
  rw [← image_nonzero_eq_filter]
  by_cases hm : st.manualChecked = true
  · rw [if_pos (Or.inl hm), hm]
    rw [if_pos (Or.inl (by simp))]
  · by_cases hz : image_nonzero st.image = []
    · rw [if_pos (Or.inr (by rw [count_nonzero_eq_length, hz]; decide)),
        if_pos (Or.inr hz)]
    · rw [if_neg, if_neg]
      · simp only [np_percentile_eq_spec]
      · rintro (h | h)
        · simp only [Bool.not_eq_true] at hm
          rw [hm] at h
          exact absurd h (by decide)
        · exact hz h
      · rintro (h | h)
        · exact hm h
        · rw [count_nonzero_eq_length] at h
          exact hz (List.length_eq_zero.mp (Nat.lt_one_iff.mp h))

/-! ### Claim C5 -/

/-- `getD` at an in-range index is the element there, whatever the default. -/
theorem getD_eq_getElem_of_lt (l : List ℚ) (d : ℚ) {n : ℕ} (h : n < l.length) :
    l.getD n d = l[n] := by
  rw [List.getD_eq_getElem?_getD, List.getElem?_eq_getElem h, Option.getD_some]

/-- `getD` past the end is the default. -/
theorem getD_eq_default_of_le (l : List ℚ) (d : ℚ) {n : ℕ}
    (h : l.length ≤ n) : l.getD n d = d := by
  rw [List.getD_eq_getElem?_getD, List.getElem?_eq_none h, Option.getD_none]

/-- On a sorted list, `getD` (with default 0) is monotone over in-range
indices. -/
theorem sorted_getD_le (s : List ℚ) (hs : s.Sorted (· ≤ ·))
    {i j : ℕ} (hij : i ≤ j) (hj : j < s.length) :
    s.getD i 0 ≤ s.getD j 0 := by
  have hi : i < s.length := lt_of_le_of_lt hij hj
  rw [getD_eq_getElem_of_lt s 0 hi, getD_eq_getElem_of_lt s 0 hj]
  rcases eq_or_lt_of_le hij with rfl | hlt
  · exact le_refl _
  · have h := hs.rel_get_of_lt (a := ⟨i, hi⟩) (b := ⟨j, hj⟩) hlt
    simpa using h

/-- On a sorted list, the lower bracketing order statistic is at most the
upper one (the upper `getD` defaults to the lower value past the end). -/
theorem getD_succ_self_le (s : List ℚ) (hs : s.Sorted (· ≤ ·))
    {i : ℕ} (hi : i < s.length) :
    s.getD i 0 ≤ s.getD (i + 1) (s.getD i 0) := by
  by_cases h : i + 1 < s.length
  · rw [getD_eq_getElem_of_lt s _ h]
    rw [getD_eq_getElem_of_lt s 0 hi]
    have hle := hs.rel_get_of_lt (a := ⟨i, hi⟩) (b := ⟨i + 1, h⟩)
      (by exact Nat.lt_succ_self i)
    simpa using hle
  · rw [getD_eq_default_of_le s (s.getD i 0) (by omega : s.length ≤ i + 1)]

/-- numpy's linear-interpolation percentile is monotone in the percentile
parameter (on a nonempty array, for parameters within [0, 100]). -/
theorem np_percentile_mono (a : List ℚ) (q₁ q₂ : ℚ) (ha : a ≠ [])
    (h0 : 0 ≤ q₁) (h12 : q₁ ≤ q₂) (h100 : q₂ ≤ 100) :
    np_percentile a q₁ ≤ np_percentile a q₂ := by
  unfold np_percentile
  simp only [ratFloor_eq_floor]
  set s := List.insertionSort (· ≤ ·) a with hs_def
  have hs : s.Sorted (· ≤ ·) := List.sorted_insertionSort _ a
  have hlen : 0 < s.length := by
    have hp : (List.insertionSort (· ≤ ·) a).length = a.length :=
      (List.perm_insertionSort (· ≤ ·) a).length_eq
    have ha2 : 0 < a.length := List.length_pos.mpr ha
    rw [← hs_def] at hp
    omega
  set n : ℕ := s.length with hn_def
  set r₁ : ℚ := q₁ * ((n : ℚ) - 1) / 100 with hr1_def
  set r₂ : ℚ := q₂ * ((n : ℚ) - 1) / 100 with hr2_def
  have hn1 : (1 : ℚ) ≤ (n : ℚ) := by exact_mod_cast hlen
  have hnn : (0 : ℚ) ≤ (n : ℚ) - 1 := by linarith
  have hr0 : 0 ≤ r₁ := by
    rw [hr1_def]
    apply div_nonneg (mul_nonneg h0 hnn) (by norm_num)
  have hr12 : r₁ ≤ r₂ := by
    rw [hr1_def, hr2_def]
    apply div_le_div_of_nonneg_right ?_ (by norm_num)
    exact mul_le_mul_of_nonneg_right h12 hnn
  have hr2top : r₂ ≤ (n : ℚ) - 1 := by
    rw [hr2_def, div_le_iff₀ (by norm_num : (0 : ℚ) < 100)]
    nlinarith
  have hf1nn : 0 ≤ ⌊r₁⌋ := Int.floor_nonneg.mpr hr0
  have hf12 : ⌊r₁⌋ ≤ ⌊r₂⌋ := Int.floor_le_floor hr12
  have hf2nn : 0 ≤ ⌊r₂⌋ := le_trans hf1nn hf12
  have hf2top : ⌊r₂⌋ ≤ (n : ℤ) - 1 := by
    have h1 : (⌊r₂⌋ : ℚ) ≤ (n : ℚ) - 1 := le_trans (Int.floor_le r₂) hr2top
    exact_mod_cast h1
  set i₁ : ℕ := (⌊r₁⌋).toNat with hi1_def
  set i₂ : ℕ := (⌊r₂⌋).toNat with hi2_def
  have hc1 : (i₁ : ℤ) = ⌊r₁⌋ := Int.toNat_of_nonneg hf1nn
  have hc2 : (i₂ : ℤ) = ⌊r₂⌋ := Int.toNat_of_nonneg hf2nn
  have hq1 : (⌊r₁⌋ : ℚ) = (i₁ : ℚ) := by exact_mod_cast hc1.symm
  have hq2 : (⌊r₂⌋ : ℚ) = (i₂ : ℚ) := by exact_mod_cast hc2.symm
  have hi2lt : i₂ < n := by omega
  have hi1le : i₁ ≤ i₂ := by omega
  have hi1lt : i₁ < n := lt_of_le_of_lt hi1le hi2lt
  have hfr1a : (⌊r₁⌋ : ℚ) ≤ r₁ := Int.floor_le r₁
  have hfr1b : r₁ < (⌊r₁⌋ : ℚ) + 1 := Int.lt_floor_add_one r₁
  have hfr2a : (⌊r₂⌋ : ℚ) ≤ r₂ := Int.floor_le r₂
  have hlohi1 : s.getD i₁ 0 ≤ s.getD (i₁ + 1) (s.getD i₁ 0) :=
    getD_succ_self_le s hs hi1lt
  have hlohi2 : s.getD i₂ 0 ≤ s.getD (i₂ + 1) (s.getD i₂ 0) :=
    getD_succ_self_le s hs hi2lt
  rcases eq_or_lt_of_le hf12 with heq | hlt
  · have hii : i₁ = i₂ := by omega
    rw [← hii] at hlohi2 ⊢
    have hqq : (⌊r₂⌋ : ℚ) = (⌊r₁⌋ : ℚ) := by exact_mod_cast heq.symm
    rw [hqq]
    nlinarith [hlohi1, hr12]
  · have hi1s : i₁ + 1 ≤ i₂ := by omega
    have hi1slt : i₁ + 1 < n := lt_of_le_of_lt hi1s hi2lt
    have hub : s.getD i₁ 0 +
        (r₁ - (⌊r₁⌋ : ℚ)) * (s.getD (i₁ + 1) (s.getD i₁ 0) - s.getD i₁ 0)
          ≤ s.getD (i₁ + 1) (s.getD i₁ 0) := by
      nlinarith [hlohi1, hfr1a, hfr1b]
    have hmid : s.getD (i₁ + 1) (s.getD i₁ 0) ≤ s.getD i₂ 0 := by
      rw [getD_eq_getElem_of_lt s _ hi1slt,
        ← getD_eq_getElem_of_lt s 0 hi1slt]
      exact sorted_getD_le s hs hi1s hi2lt
    have hlb : s.getD i₂ 0 ≤ s.getD i₂ 0 +
        (r₂ - (⌊r₂⌋ : ℚ)) * (s.getD (i₂ + 1) (s.getD i₂ 0) - s.getD i₂ 0) := by
      nlinarith [hlohi2, hfr2a]
    linarith

/-- PERCENTILE-mode state with an all-zero sample and inverted manual
bounds. -/
def c5_state : ColorbarState :=
  { manualChecked := false, percentileChecked := true,
    min_manual := 10, max_manual := 5,
    min_percentile := 0, max_percentile := 100,
    image := some [0, 0, 0], imageLevels := (0, 0), legendRange := (0, 0) }

/-- Claim C5 counterexample: in PERCENTILE mode with percentiles (0, 100)
(so low ≤ high) but an all-zero sample, `get_cb_range` falls back to the
manual bounds unvalidated and returns the inverted pair (10, 5). -/
theorem C5_cex_fallback_inverted :
    get_cb_range c5_state = (10, 5) ∧ ¬ ((10 : ℚ) ≤ 5) := by decide

/-- Claim C5 (amended): in PERCENTILE mode with 0 ≤ low ≤ high ≤ 100,
`get_cb_range` returns an ordered pair provided the manual bounds (used by
the degenerate-data fallback) are themselves ordered; when the sample has a
nonzero entry the percentile monotonicity alone gives min ≤ max. -/
theorem C5_range_ordered_amended (st : ColorbarState)
    (_hm : st.manualChecked = false)
    (h0 : 0 ≤ st.min_percentile) (h12 : st.min_percentile ≤ st.max_percentile)
    (h100 : st.max_percentile ≤ 100) (hman : st.min_manual ≤ st.max_manual) :
    (get_cb_range st).1 ≤ (get_cb_range st).2 := by
  unfold get_cb_range
  by_cases hc : st.manualChecked = true ∨ count_nonzero st.image < 1
  · rw [if_pos hc]
    exact hman
  · rw [if_neg hc]
    show np_percentile (image_nonzero st.image) st.min_percentile
      ≤ np_percentile (image_nonzero st.image) st.max_percentile
    have hnz : image_nonzero st.image ≠ [] := by
      intro h
      exact hc (Or.inr (by rw [count_nonzero_eq_length, h]; decide))
    exact np_percentile_mono _ _ _ hnz h0 h12 h100

/-- PERCENTILE-mode state with nonzero data and interior percentiles. -/
def c5_witness_state : ColorbarState :=
  { manualChecked := false, percentileChecked := true,
    min_manual := 0, max_manual := 1,
    min_percentile := 10, max_percentile := 90,
    image := some [0, 3, 1, 4], imageLevels := (0, 0), legendRange := (0, 0) }

/-- Witness for C5 (amended) at a concrete percentile-branch state. -/
theorem C5_range_ordered_amended_witness :
    (get_cb_range c5_witness_state).1 ≤ (get_cb_range c5_witness_state).2 :=
  C5_range_ordered_amended c5_witness_state rfl (by decide) (by decide)
    (by decide) (by decide)
